import Mathlib

/-!
# Shallow embedding of the TSQ bounded blocking queue

This file embeds the observable semantics of the repository's
`ThreadSafeContainer` (a bounded, thread-safe FIFO queue) and proves, or
refutes, specification claims about it.

Two source variants exist in the repository:

* the library variant `tsc::ThreadSafeContainer`
  (`src/lib/include/tsc/thread_safe_container.hpp`), embedded in the
  namespace `tsc` below;
* the earlier header-only variant `TSC::ThreadSafeContainer`
  (`src/ThreadSafeContainerPrivate.hpp`), whose removal path is embedded in
  the namespace `TSC` below.

Modelling conventions:

* The container state is the triple of fields protected by the mutex:
  the immutable capacity (`max_size_` in the library variant, `maxSize` in
  the older one), the FIFO buffer (`queue_` / `fifo`, front at the head of
  the list), and the activity flag (`is_active_` / `inUse`).  The mutex,
  and the condition variables' `notify` calls, have no effect on the
  observable state and are not represented.
* Every operation runs under the lock, so it is a function from the state
  at its linearization point to a result together with the state it leaves
  behind.  A thrown `ShutdownException` is an `Except.error` carrying the
  exception's message; since C++ stack unwinding performs no further
  mutation, the state returned alongside the error is the state at the
  throw point.
* A condition-variable wait `cv.wait(lock, pred)` proceeds only once `pred`
  holds (while the lock is held).  The blocking operations are therefore
  `Option`-valued: `none` means the wait predicate is false at the observed
  state, i.e. the call blocks and, absent another thread, never returns;
  `some` is the result computed after the wait, from a state satisfying
  the predicate.
-/

namespace TSQ

namespace tsc

/-- Exception state of `tsc::ShutdownException`
(`src/lib/include/tsc/thread_safe_container.hpp`, lines 16-20): a
`std::runtime_error` whose `what()` string is built by the constructor. -/
structure ShutdownException where
  message : String
deriving DecidableEq

/-- The `tsc::ShutdownException(message)` constructor: it prefixes
`"ThreadSafeContainer shutdown: "` to the supplied message. -/
def mkShutdownException (message : String) : ShutdownException :=
  ⟨"ThreadSafeContainer shutdown: " ++ message⟩

/-- The state of a `tsc::ThreadSafeContainer<T>` that is observable through
its operations: `max_size_` (the capacity, fixed at construction),
`queue_` (the FIFO buffer, front at the head) and `is_active_`. -/
structure Container (α : Type) where
  max_size : Nat
  queue : List α
  is_active : Bool
deriving DecidableEq

/-- Constructor `ThreadSafeContainer(size_type capacity)`: stores the
capacity unchecked (no validation of any kind) and starts active with an
empty buffer. -/
def mkContainer (α : Type) (capacity : Nat) : Container α :=
  { max_size := capacity, queue := [], is_active := true }

/-- `tryAdd(const T& item)`: under the lock, throws if shut down; returns
`false` without mutation when the buffer is at capacity; otherwise pushes
the item at the back and returns `true`. -/
def tryAdd (c : Container α) (item : α) :
    Except ShutdownException Bool × Container α :=
  if c.is_active = false then
    (Except.error (mkShutdownException "cannot add to shutdown container"), c)
  else if c.queue.length = c.max_size then
    (Except.ok false, c)
  else
    (Except.ok true, { c with queue := c.queue ++ [item] })

/-- The predicate `waitAdd` waits on:
`[this] \x7b return queue_.size() < max_size_ || !is_active_; \x7d`. -/
def waitAddPred (c : Container α) : Bool :=
  decide (c.queue.length < c.max_size) || !c.is_active

/-- `waitAdd(const T& item)`: waits until the buffer has room or the
container is shut down; on wake throws if shut down, otherwise pushes the
item at the back. `none` models the call still blocked (predicate false). -/
def waitAdd (c : Container α) (item : α) :
    Option (Except ShutdownException Unit × Container α) :=
  if waitAddPred c = false then
    none
  else if c.is_active = false then
    some (Except.error (mkShutdownException "cannot add to shutdown container"), c)
  else
    some (Except.ok (), { c with queue := c.queue ++ [item] })

/-- `tryRemove(T& item)`: under the lock, throws if shut down; returns
`false` (no item) when the buffer is empty; otherwise pops the front item
and returns it with `true`. -/
def tryRemove (c : Container α) :
    Except ShutdownException (Option α) × Container α :=
  if c.is_active = false then
    (Except.error (mkShutdownException "cannot remove from shutdown container"), c)
  else
    match c.queue with
    | [] => (Except.ok none, c)
    | front :: rest => (Except.ok (some front), { c with queue := rest })

/-- The predicate `waitRemove` waits on:
`[this] \x7b return !queue_.empty() || !is_active_; \x7d`. -/
def waitRemovePred (c : Container α) : Bool :=
  !c.queue.isEmpty || !c.is_active

/-- `waitRemove(T& item)`: waits until the buffer is non-empty or the
container is shut down; on wake, throws whenever the container is shut
down (the buffer's contents are not consulted first), otherwise pops and
returns the front item.  The `[]` branch after the activity check cannot
be reached: the wait predicate together with `is_active_` forces a
non-empty buffer. -/
def waitRemove (c : Container α) :
    Option (Except ShutdownException α × Container α) :=
  if waitRemovePred c = false then
    none
  else if c.is_active = false then
    some (Except.error (mkShutdownException "cannot remove from shutdown container"), c)
  else
    match c.queue with
    | [] => none
    | front :: rest => some (Except.ok front, { c with queue := rest })

/-- `shutdown()`: clears the activity flag and broadcasts to both
condition variables (the broadcasts are unobservable here). -/
def shutdown (c : Container α) : Container α :=
  { c with is_active := false }

/-- `clear()`: pops every element, but only when the container is shut
down; while active it does nothing. -/
def clear (c : Container α) : Container α :=
  if c.is_active = false then { c with queue := [] } else c

/-- `size()`: number of buffered items. -/
def size (c : Container α) : Nat := c.queue.length

/-- `empty()`: whether the buffer is empty. -/
def isEmpty (c : Container α) : Bool := c.queue.isEmpty

/-- `full()`: whether the buffer is at capacity. -/
def full (c : Container α) : Bool := c.queue.length == c.max_size

/-- `isActive()`: the activity flag. -/
def isActive (c : Container α) : Bool := c.is_active

end tsc

namespace TSC

/-- `TSC::ShutdownException` (`src/ThreadSafeContainer.h` era header):
stores the supplied message verbatim (no prefixing, unlike the library
variant's exception).  It is represented over the same message-string
state as `tsc.ShutdownException` so the two variants' results can be
compared. -/
def mkShutdownException (message : String) : tsc.ShutdownException :=
  ⟨message⟩

/-- The predicate `TSC::ThreadSafeContainer::waitRemove` waits on:
`[this] \x7b return !fifo.empty() || !inUse; \x7d`
(`src/ThreadSafeContainerPrivate.hpp`).  The container state is the same
triple (`maxSize`, `fifo`, `inUse`) as the library variant's, so it is
shared as `tsc.Container`. -/
def waitRemovePred (c : tsc.Container α) : Bool :=
  !c.queue.isEmpty || !c.is_active

/-- `TSC::ThreadSafeContainer::waitRemove(T& item)`
(`src/ThreadSafeContainerPrivate.hpp`, lines 110-135): waits until the
buffer is non-empty or the container is shut down; after the wait it
re-notifies `notEmpty` when empty and shut down (unobservable), then
throws `ShutdownException("shutdown")` whenever `inUse` is false — the
buffer is not consulted first — and otherwise pops the front item.  The
`[]` branch after the activity check is unreachable. -/
def waitRemove (c : tsc.Container α) :
    Option (Except tsc.ShutdownException α × tsc.Container α) :=
  if waitRemovePred c = false then
    none
  else if c.is_active = false then
    some (Except.error (mkShutdownException "shutdown"), c)
  else
    match c.queue with
    | [] => none
    | front :: rest => some (Except.ok front, { c with queue := rest })

/-- `TSC::ThreadSafeContainer::clear()`
(`src/ThreadSafeContainerPrivate.hpp`, lines 152-163): pops every element
and notifies both condition variables (unobservable), but only when
`inUse` is false; while in use it does nothing. -/
def clear (c : tsc.Container α) : tsc.Container α :=
  if c.is_active = false then { c with queue := [] } else c

end TSC

namespace tsc

/-- A client call against the container, for reasoning about sequences of
operations issued through the public API. -/
inductive Op (α : Type) where
  | tryAddOp (item : α)
  | waitAddOp (item : α)
  | tryRemoveOp
  | waitRemoveOp
  | shutdownOp
  | clearOp
deriving DecidableEq

/-- The container state an operation leaves behind: the second component
of the operation's result, or the unchanged state when a blocking call
never returns. -/
def applyOp (c : Container α) : Op α → Container α
  | .tryAddOp a => (tryAdd c a).2
  | .waitAddOp a =>
      match waitAdd c a with
      | some r => r.2
      | none => c
  | .tryRemoveOp => (tryRemove c).2
  | .waitRemoveOp =>
      match waitRemove c with
      | some r => r.2
      | none => c
  | .shutdownOp => shutdown c
  | .clearOp => clear c

/-- Run a sequence of operations left to right. -/
def run (c : Container α) : List (Op α) → Container α
  | [] => c
  | op :: ops => run (applyOp c op) ops

/-- The items an operation successfully inserts (empty unless the call is
a successful `tryAdd` returning `true` or a successful `waitAdd`). -/
def opInserted (c : Container α) : Op α → List α
  | .tryAddOp a =>
      match tryAdd c a with
      | (Except.ok true, _) => [a]
      | _ => []
  | .waitAddOp a =>
      match waitAdd c a with
      | some (Except.ok _, _) => [a]
      | _ => []
  | _ => []

/-- The items an operation successfully removes (empty unless the call is
a `tryRemove` returning an item or a successful `waitRemove`). -/
def opRemoved (c : Container α) : Op α → List α
  | .tryRemoveOp =>
      match tryRemove c with
      | (Except.ok (some x), _) => [x]
      | _ => []
  | .waitRemoveOp =>
      match waitRemove c with
      | some (Except.ok x, _) => [x]
      | _ => []
  | _ => []

/-- Run a sequence of operations, collecting the final state, the list of
items inserted (in order) and the list of items removed (in order). -/
def runTrace (c : Container α) :
    List (Op α) → Container α × List α × List α
  | [] => (c, [], [])
  | op :: ops =>
      let r := runTrace (applyOp c op) ops
      (r.1, opInserted c op ++ r.2.1, opRemoved c op ++ r.2.2)

end tsc

namespace tsc

/-- No operation changes the capacity field. -/
theorem applyOp_max_size (c : Container α) (op : Op α) :
    (applyOp c op).max_size = c.max_size := by
  obtain ⟨m, q, act⟩ := c
  cases op <;> cases act <;>
    simp only [applyOp, tryAdd, waitAdd, waitAddPred, tryRemove, waitRemove,
      waitRemovePred, shutdown, clear] <;>
    split_ifs <;> try rfl
  all_goals (cases q <;> rfl)

/-- No operation makes the buffer exceed the capacity. -/
theorem applyOp_length_le (c : Container α) (op : Op α)
    (h : c.queue.length ≤ c.max_size) :
    (applyOp c op).queue.length ≤ c.max_size := by
  cases op with
  | tryAddOp a =>
      simp only [applyOp, tryAdd]
      split_ifs with h1 h2
      · exact h
      · exact h
      · have hlt : c.queue.length < c.max_size := lt_of_le_of_ne h h2
        simpa using hlt
  | waitAddOp a =>
      simp only [applyOp, waitAdd]
      split_ifs with h1 h2
      · exact h
      · exact h
      · have hact : c.is_active = true := by
          revert h2; cases c.is_active <;> simp
        have h1' : waitAddPred c = true := by
          revert h1; cases waitAddPred c <;> simp
        have hlt : c.queue.length < c.max_size := by
          simpa [waitAddPred, hact] using h1'
        simpa using hlt
  | tryRemoveOp =>
      simp only [applyOp, tryRemove]
      split_ifs with h1
      · exact h
      · cases hq : c.queue with
        | nil => exact h
        | cons x rest =>
            have := h
            rw [hq] at this
            simpa using Nat.le_of_succ_le (by simpa using this)
  | waitRemoveOp =>
      simp only [applyOp, waitRemove]
      split_ifs with h1 h2
      · exact h
      · exact h
      · cases hq : c.queue with
        | nil => exact h
        | cons x rest =>
            have := h
            rw [hq] at this
            simpa using Nat.le_of_succ_le (by simpa using this)
  | shutdownOp => exact h
  | clearOp =>
      simp only [applyOp, clear]
      split_ifs
      · simp
      · exact h

/-- No sequence of operations changes the capacity field. -/
theorem run_max_size (ops : List (Op α)) (c : Container α) :
    (run c ops).max_size = c.max_size := by
  induction ops generalizing c with
  | nil => rfl
  | cons op ops ih => simpa [run, applyOp_max_size] using ih (applyOp c op)

/-- No sequence of operations makes the buffer exceed the capacity. -/
theorem run_length_le (ops : List (Op α)) (c : Container α)
    (h : c.queue.length ≤ c.max_size) :
    (run c ops).queue.length ≤ c.max_size := by
  induction ops generalizing c with
  | nil => exact h
  | cons op ops ih =>
      have h' : (applyOp c op).queue.length ≤ (applyOp c op).max_size := by
        rw [applyOp_max_size]
        exact applyOp_length_le c op h
      have := ih (applyOp c op) h'
      simpa [run, applyOp_max_size] using this

/-- Once the activity flag is cleared, no operation sets it again. -/
theorem applyOp_inactive (c : Container α) (op : Op α)
    (h : c.is_active = false) :
    (applyOp c op).is_active = false := by
  obtain ⟨m, q, act⟩ := c
  simp only at h
  subst h
  cases op <;>
    simp [applyOp, tryAdd, waitAdd, waitAddPred, tryRemove, waitRemove,
      waitRemovePred, shutdown, clear]

/-- Once the activity flag is cleared, no sequence of operations sets it
again. -/
theorem run_inactive (ops : List (Op α)) (c : Container α)
    (h : c.is_active = false) :
    (run c ops).is_active = false := by
  induction ops generalizing c with
  | nil => exact h
  | cons op ops ih => exact ih (applyOp c op) (applyOp_inactive c op h)

/-- One-step FIFO accounting: apart from `clear`, every operation
conserves items — what it removes, prepended to the buffer it leaves,
equals the buffer it found followed by what it inserts. -/
theorem applyOp_fifo (c : Container α) (op : Op α) (h : op ≠ Op.clearOp) :
    opRemoved c op ++ (applyOp c op).queue = c.queue ++ opInserted c op := by
  cases op with
  | tryAddOp a =>
      simp only [applyOp, opInserted, opRemoved, tryAdd]
      split_ifs <;> simp
  | waitAddOp a =>
      simp only [applyOp, opInserted, opRemoved, waitAdd]
      split_ifs <;> simp
  | tryRemoveOp =>
      obtain ⟨m, q, act⟩ := c
      simp only [applyOp, opInserted, opRemoved, tryRemove]
      split_ifs <;> cases q <;> simp
  | waitRemoveOp =>
      obtain ⟨m, q, act⟩ := c
      simp only [applyOp, opInserted, opRemoved, waitRemove]
      split_ifs <;> cases q <;> simp
  | shutdownOp => simp [applyOp, opInserted, opRemoved, shutdown]
  | clearOp => exact absurd rfl h

/-- Trace-level FIFO accounting: in any run without `clear`, the removed
items followed by the final buffer equal the initial buffer followed by
the inserted items. -/
theorem runTrace_fifo (ops : List (Op α)) (c : Container α)
    (h : Op.clearOp ∉ ops) :
    (runTrace c ops).2.2 ++ (runTrace c ops).1.queue
      = c.queue ++ (runTrace c ops).2.1 := by
  induction ops generalizing c with
  | nil => simp [runTrace]
  | cons op ops ih =>
      have hop : op ≠ Op.clearOp := fun e => h (by simp [e])
      have hmem : Op.clearOp ∉ ops := fun m => h (List.mem_cons_of_mem _ m)
      simp only [runTrace]
      rw [List.append_assoc, ih (applyOp c op) hmem, ← List.append_assoc,
        applyOp_fifo c op hop, List.append_assoc]

/-- The state component of a trace run agrees with `run`. -/
theorem runTrace_fst (ops : List (Op α)) (c : Container α) :
    (runTrace c ops).1 = run c ops := by
  induction ops generalizing c with
  | nil => rfl
  | cons op ops ih => simpa [runTrace, run] using ih (applyOp c op)

end tsc

/-- Forget the message carried by an error outcome, keeping the shape of
the result (blocked / error / delivered item, together with the state the
operation leaves behind).  Used to compare the two source variants, whose
exception messages differ. -/
def eraseExc {α β : Type} :
    Option (Except tsc.ShutdownException β × tsc.Container α)
      → Option (Except Unit β × tsc.Container α)
  | none => none
  | some (Except.error _, c) => some (Except.error (), c)
  | some (Except.ok b, c) => some (Except.ok b, c)

/-- Claim C9: on a freshly constructed active queue with capacity 1,
`tryAdd "x"` returns `true`; a following `tryAdd "y"` returns `false`
leaving the buffer unchanged; a following `tryRemove` returns item `"x"`
with success; a further `tryRemove` on the now-empty active queue reports
no item, without failing. -/
theorem claim9_scenario_A :
    tsc.tryAdd (tsc.mkContainer String 1) "x"
      = (Except.ok true, ⟨1, ["x"], true⟩)
    ∧ tsc.tryAdd (⟨1, ["x"], true⟩ : tsc.Container String) "y"
      = (Except.ok false, ⟨1, ["x"], true⟩)
    ∧ tsc.tryRemove (⟨1, ["x"], true⟩ : tsc.Container String)
      = (Except.ok (some "x"), ⟨1, [], true⟩)
    ∧ tsc.tryRemove (⟨1, [], true⟩ : tsc.Container String)
      = (Except.ok none, ⟨1, [], true⟩) :=
  ⟨rfl, rfl, rfl, rfl⟩

/-- Claim C4: on a shut-down container, `tryAdd` and `tryRemove` each
fail with the shutdown error, and the state they leave behind — buffer
contents, size and all — is exactly the state they found. -/
theorem claim4_shutdown_errors_atomic :
    ∀ (α : Type) (c : tsc.Container α) (item : α),
      c.is_active = false →
        tsc.tryAdd c item
          = (Except.error
              (tsc.mkShutdownException "cannot add to shutdown container"), c)
        ∧ tsc.tryRemove c
          = (Except.error
              (tsc.mkShutdownException "cannot remove from shutdown container"), c) := by
  intro α c item h
  exact ⟨by simp [tsc.tryAdd, h], by simp [tsc.tryRemove, h]⟩

/-- Witness for C4 at the concrete shut-down container holding `[7]`. -/
theorem claim4_witness :
    tsc.tryAdd (⟨2, [7], false⟩ : tsc.Container Nat) 9
      = (Except.error
          (tsc.mkShutdownException "cannot add to shutdown container"),
          ⟨2, [7], false⟩)
    ∧ tsc.tryRemove (⟨2, [7], false⟩ : tsc.Container Nat)
      = (Except.error
          (tsc.mkShutdownException "cannot remove from shutdown container"),
          ⟨2, [7], false⟩) :=
  claim4_shutdown_errors_atomic Nat ⟨2, [7], false⟩ 9 rfl

/-- Claim C7: `shutdown` is idempotent (running it twice leaves the very
same state as once), `isActive` is `false` right after it, and no
sequence of subsequent operations ever makes `isActive` true again. -/
theorem claim7_shutdown_idempotent_one_way :
    ∀ (α : Type) (c : tsc.Container α),
      tsc.shutdown (tsc.shutdown c) = tsc.shutdown c
      ∧ tsc.isActive (tsc.shutdown c) = false
      ∧ ∀ ops : List (tsc.Op α),
          tsc.isActive (tsc.run (tsc.shutdown c) ops) = false := by
  intro α c
  exact ⟨rfl, rfl, fun ops => tsc.run_inactive ops (tsc.shutdown c) rfl⟩

/-- Claim C8: while active, `clear` (in both source variants) leaves the
container, and hence its size, unchanged and does not fail; once shut
down, `clear` empties the buffer so the size becomes 0. -/
theorem claim8_clear_active_noop_shutdown_empties :
    ∀ (α : Type) (c : tsc.Container α),
      (c.is_active = true →
        tsc.clear c = c ∧ tsc.size (tsc.clear c) = tsc.size c ∧ TSC.clear c = c)
      ∧ (c.is_active = false →
        (tsc.clear c).queue = [] ∧ tsc.size (tsc.clear c) = 0
          ∧ (TSC.clear c).queue = []) := by
  intro α c
  constructor
  · intro h
    have h1 : tsc.clear c = c := by simp [tsc.clear, h]
    have h2 : TSC.clear c = c := by simp [TSC.clear, h]
    exact ⟨h1, by rw [h1], h2⟩
  · intro h
    exact ⟨by simp [tsc.clear, h], by simp [tsc.clear, tsc.size, h],
      by simp [TSC.clear, h]⟩

/-- Witness for C8 at concrete active and shut-down containers holding
`[1]`. -/
theorem claim8_witness :
    (tsc.clear (⟨2, [1], true⟩ : tsc.Container Nat) = ⟨2, [1], true⟩
      ∧ tsc.size (tsc.clear (⟨2, [1], true⟩ : tsc.Container Nat))
          = tsc.size (⟨2, [1], true⟩ : tsc.Container Nat)
      ∧ TSC.clear (⟨2, [1], true⟩ : tsc.Container Nat) = ⟨2, [1], true⟩)
    ∧ ((tsc.clear (⟨2, [1], false⟩ : tsc.Container Nat)).queue = []
      ∧ tsc.size (tsc.clear (⟨2, [1], false⟩ : tsc.Container Nat)) = 0
      ∧ (TSC.clear (⟨2, [1], false⟩ : tsc.Container Nat)).queue = []) :=
  ⟨(claim8_clear_active_noop_shutdown_empties Nat ⟨2, [1], true⟩).1 rfl,
   (claim8_clear_active_noop_shutdown_empties Nat ⟨2, [1], false⟩).2 rfl⟩

/-- Counterexample to C1: on the shut-down container with capacity 1 still
holding `["x"]`, `waitRemove` does not pop and deliver the front item —
it fails with the shutdown error and leaves the buffer untouched. -/
theorem claim1_counterexample :
    tsc.waitRemove (⟨1, ["x"], false⟩ : tsc.Container String)
      = some (Except.error
          (tsc.mkShutdownException "cannot remove from shutdown container"),
          ⟨1, ["x"], false⟩)
    ∧ Option.map Prod.fst
        (tsc.waitRemove (⟨1, ["x"], false⟩ : tsc.Container String))
      ≠ some (Except.ok "x") :=
  ⟨rfl, by simp [tsc.waitRemove, tsc.waitRemovePred]⟩

/-- Claim C1 as amended: `waitRemove` fails with the shutdown error
whenever the container is shut down — the buffer's contents are not
consulted first, so even a non-empty shut-down container refuses removal
(there is no drain-first policy); it pops and returns the front item only
when the container is active and non-empty. -/
theorem claim1_waitRemove_fails_whenever_shutdown :
    ∀ (α : Type) (c : tsc.Container α),
      (c.is_active = false →
        tsc.waitRemove c
          = some (Except.error
              (tsc.mkShutdownException "cannot remove from shutdown container"), c))
      ∧ (∀ (front : α) (rest : List α),
          c.is_active = true → c.queue = front :: rest →
            tsc.waitRemove c
              = some (Except.ok front, { c with queue := rest })) := by
  intro α c
  constructor
  · intro h
    simp [tsc.waitRemove, tsc.waitRemovePred, h]
  · intro front rest hact hq
    simp [tsc.waitRemove, tsc.waitRemovePred, hact, hq]

/-- Witness for the amended C1: a shut-down container holding `[4]`
refuses removal, while an active container holding `[4, 5]` pops `4`. -/
theorem claim1_witness :
    tsc.waitRemove (⟨2, [4], false⟩ : tsc.Container Nat)
      = some (Except.error
          (tsc.mkShutdownException "cannot remove from shutdown container"),
          ⟨2, [4], false⟩)
    ∧ tsc.waitRemove (⟨2, [4, 5], true⟩ : tsc.Container Nat)
      = some (Except.ok 4, ⟨2, [5], true⟩) :=
  ⟨(claim1_waitRemove_fails_whenever_shutdown Nat ⟨2, [4], false⟩).1 rfl,
   (claim1_waitRemove_fails_whenever_shutdown Nat ⟨2, [4, 5], true⟩).2
     4 [5] rfl rfl⟩

/-- Counterexample to C2: with capacity 5, after five successful inserts
and a `shutdown`, the buffer still holds all five items — yet already the
first post-shutdown `tryRemove` fails with the shutdown error instead of
returning an item, so no drain loop ever yields the five items. -/
theorem claim2_counterexample :
    tsc.run (tsc.mkContainer Nat 5)
        [tsc.Op.tryAddOp 1, tsc.Op.tryAddOp 2, tsc.Op.tryAddOp 3,
          tsc.Op.tryAddOp 4, tsc.Op.tryAddOp 5, tsc.Op.shutdownOp]
      = ⟨5, [1, 2, 3, 4, 5], false⟩
    ∧ tsc.tryRemove (⟨5, [1, 2, 3, 4, 5], false⟩ : tsc.Container Nat)
      = (Except.error
          (tsc.mkShutdownException "cannot remove from shutdown container"),
          ⟨5, [1, 2, 3, 4, 5], false⟩) :=
  ⟨rfl, rfl⟩

/-- Claim C2 as amended: once the container is shut down, every
`tryRemove` call — the first included — fails with the shutdown error and
removes nothing, whatever the buffer holds; the inserted items stay
buffered (until `clear`), so a post-shutdown `tryRemove` loop drains zero
items, not N. -/
theorem claim2_tryRemove_fails_whenever_shutdown :
    ∀ (α : Type) (c : tsc.Container α),
      c.is_active = false →
        tsc.tryRemove c
          = (Except.error
              (tsc.mkShutdownException "cannot remove from shutdown container"), c) := by
  intro α c h
  simp [tsc.tryRemove, h]

/-- Witness for the amended C2 at a shut-down container holding
`[10, 20]`. -/
theorem claim2_witness :
    tsc.tryRemove (⟨3, [10, 20], false⟩ : tsc.Container Nat)
      = (Except.error
          (tsc.mkShutdownException "cannot remove from shutdown container"),
          ⟨3, [10, 20], false⟩) :=
  claim2_tryRemove_fails_whenever_shutdown Nat ⟨3, [10, 20], false⟩ rfl

/-- Counterexample to C3: on the shut-down container still holding
`["a"]`, the two `waitRemove` variants do not diverge — the earlier
`TSC::` variant and the library `tsc::` variant both fail immediately
with a shutdown exception (differing only in the message), and neither
drains the remaining item. -/
theorem claim3_counterexample :
    TSC.waitRemove (⟨2, ["a"], false⟩ : tsc.Container String)
      = some (Except.error (TSC.mkShutdownException "shutdown"),
          ⟨2, ["a"], false⟩)
    ∧ tsc.waitRemove (⟨2, ["a"], false⟩ : tsc.Container String)
      = some (Except.error
          (tsc.mkShutdownException "cannot remove from shutdown container"),
          ⟨2, ["a"], false⟩)
    ∧ eraseExc (TSC.waitRemove (⟨2, ["a"], false⟩ : tsc.Container String))
      = eraseExc (tsc.waitRemove (⟨2, ["a"], false⟩ : tsc.Container String)) :=
  ⟨rfl, rfl, rfl⟩

/-- Claim C3 as amended: the earlier header-only `TSC::waitRemove` and
the later library `tsc::waitRemove` are observably equivalent up to the
exception message — on every container state both block, both fail, or
both pop the same front item leaving the same state; in particular on a
shut-down non-empty container both fail immediately, and neither drains
first. -/
theorem claim3_waitRemove_variants_equivalent :
    ∀ (α : Type) (c : tsc.Container α),
      eraseExc (TSC.waitRemove c) = eraseExc (tsc.waitRemove c) := by
  intro α c
  obtain ⟨m, q, act⟩ := c
  cases act <;> cases q <;>
    simp [TSC.waitRemove, TSC.waitRemovePred, tsc.waitRemove,
      tsc.waitRemovePred, eraseExc]

/-- Claim C5: starting from any construction, every operation sequence
keeps the buffer length at most the capacity; `tryAdd` on a full active
container returns `false` without appending; and a `waitAdd` that
succeeds found room (`length < capacity`) and appended exactly its
item. -/
theorem claim5_capacity_invariant :
    ∀ (α : Type) (capacity : Nat) (ops : List (tsc.Op α)),
      (tsc.run (tsc.mkContainer α capacity) ops).queue.length ≤ capacity
      ∧ (∀ (c : tsc.Container α) (item : α),
          c.is_active = true → c.queue.length = c.max_size →
            tsc.tryAdd c item = (Except.ok false, c))
      ∧ (∀ (c c' : tsc.Container α) (item : α) (r : Unit),
          tsc.waitAdd c item = some (Except.ok r, c') →
            c.queue.length < c.max_size
              ∧ c' = { c with queue := c.queue ++ [item] }) := by
  intro α capacity ops
  refine ⟨?_, ?_, ?_⟩
  · simpa [tsc.mkContainer]
      using tsc.run_length_le ops (tsc.mkContainer α capacity)
        (by simp [tsc.mkContainer])
  · intro c item hact hlen
    simp [tsc.tryAdd, hact, hlen]
  · intro c c' item r h
    by_cases hp : tsc.waitAddPred c = false
    · rw [tsc.waitAdd, if_pos hp] at h
      exact absurd h (by simp)
    · by_cases ha : c.is_active = false
      · rw [tsc.waitAdd, if_neg hp, if_pos ha] at h
        simp at h
      · rw [tsc.waitAdd, if_neg hp, if_neg ha] at h
        have hp' : tsc.waitAddPred c = true := by
          revert hp; cases tsc.waitAddPred c <;> simp
        have ha' : c.is_active = true := by
          revert ha; cases c.is_active <;> simp
        have hlt : c.queue.length < c.max_size := by
          simpa [tsc.waitAddPred, ha'] using hp'
        simp only [Option.some.injEq, Prod.mk.injEq] at h
        exact ⟨hlt, h.2.symm⟩

/-- Witness for C5: a three-insert run against capacity 2 stays within
bound; `tryAdd` on the full active container `⟨1, [4], true⟩` returns
`false` unchanged; and the successful `waitAdd` of `5` into `⟨2, [], true⟩`
found room and appended `5`. -/
theorem claim5_witness :
    (tsc.run (tsc.mkContainer Nat 2)
        [tsc.Op.tryAddOp 7, tsc.Op.tryAddOp 8, tsc.Op.tryAddOp 9]).queue.length ≤ 2
    ∧ tsc.tryAdd (⟨1, [4], true⟩ : tsc.Container Nat) 5
      = (Except.ok false, ⟨1, [4], true⟩)
    ∧ ((⟨2, [], true⟩ : tsc.Container Nat).queue.length
          < (⟨2, [], true⟩ : tsc.Container Nat).max_size
        ∧ (⟨2, [5], true⟩ : tsc.Container Nat)
          = { (⟨2, [], true⟩ : tsc.Container Nat) with
              queue := (⟨2, [], true⟩ : tsc.Container Nat).queue ++ [5] }) :=
  ⟨(claim5_capacity_invariant Nat 2
      [tsc.Op.tryAddOp 7, tsc.Op.tryAddOp 8, tsc.Op.tryAddOp 9]).1,
   (claim5_capacity_invariant Nat 2 []).2.1 ⟨1, [4], true⟩ 5 rfl rfl,
   (claim5_capacity_invariant Nat 2 []).2.2 ⟨2, [], true⟩ ⟨2, [5], true⟩
     5 () rfl⟩

/-- Claim C6: in any run of insert/remove operations (no `clear`) from a
fresh container, the items inserted are exactly the items removed
followed by what is still buffered — so removals deliver items in
insertion order, and once the buffer is empty the removed sequence equals
the inserted sequence exactly. -/
theorem claim6_fifo :
    ∀ (α : Type) (capacity : Nat) (ops : List (tsc.Op α)),
      tsc.Op.clearOp ∉ ops →
        (tsc.runTrace (tsc.mkContainer α capacity) ops).2.1
          = (tsc.runTrace (tsc.mkContainer α capacity) ops).2.2
            ++ (tsc.runTrace (tsc.mkContainer α capacity) ops).1.queue
        ∧ ((tsc.runTrace (tsc.mkContainer α capacity) ops).1.queue = [] →
            (tsc.runTrace (tsc.mkContainer α capacity) ops).2.2
              = (tsc.runTrace (tsc.mkContainer α capacity) ops).2.1) := by
  intro α capacity ops h
  have key := tsc.runTrace_fifo ops (tsc.mkContainer α capacity) h
  rw [show (tsc.mkContainer α capacity).queue = [] from rfl,
    List.nil_append] at key
  refine ⟨key.symm, fun hq => ?_⟩
  rw [← key, hq, List.append_nil]

/-- Witness for C6: inserting `"a"`, `"b"` then removing twice yields
matching insert and removal traces over an emptied buffer. -/
theorem claim6_witness :
    (tsc.runTrace (tsc.mkContainer String 2)
        [tsc.Op.tryAddOp "a", tsc.Op.tryAddOp "b",
          tsc.Op.tryRemoveOp, tsc.Op.tryRemoveOp]).2.1
      = (tsc.runTrace (tsc.mkContainer String 2)
          [tsc.Op.tryAddOp "a", tsc.Op.tryAddOp "b",
            tsc.Op.tryRemoveOp, tsc.Op.tryRemoveOp]).2.2
        ++ (tsc.runTrace (tsc.mkContainer String 2)
            [tsc.Op.tryAddOp "a", tsc.Op.tryAddOp "b",
              tsc.Op.tryRemoveOp, tsc.Op.tryRemoveOp]).1.queue
    ∧ ((tsc.runTrace (tsc.mkContainer String 2)
          [tsc.Op.tryAddOp "a", tsc.Op.tryAddOp "b",
            tsc.Op.tryRemoveOp, tsc.Op.tryRemoveOp]).1.queue = [] →
        (tsc.runTrace (tsc.mkContainer String 2)
            [tsc.Op.tryAddOp "a", tsc.Op.tryAddOp "b",
              tsc.Op.tryRemoveOp, tsc.Op.tryRemoveOp]).2.2
          = (tsc.runTrace (tsc.mkContainer String 2)
              [tsc.Op.tryAddOp "a", tsc.Op.tryAddOp "b",
                tsc.Op.tryRemoveOp, tsc.Op.tryRemoveOp]).2.1) :=
  claim6_fifo String 2
    [tsc.Op.tryAddOp "a", tsc.Op.tryAddOp "b",
      tsc.Op.tryRemoveOp, tsc.Op.tryRemoveOp]
    (by decide)

/-- Claim C10: the constructor accepts capacity 0 unchecked and starts
active; on any reachable active state of such a container, `tryAdd`
returns `false` without modifying anything; and the `waitAdd` predicate
of a capacity-0 container can only ever be satisfied by shutdown, never
by insertion space. -/
theorem claim10_zero_capacity :
    ∀ (α : Type),
      tsc.mkContainer α 0 = ⟨0, [], true⟩
      ∧ (∀ (ops : List (tsc.Op α)) (item : α),
          (tsc.run (tsc.mkContainer α 0) ops).is_active = true →
            tsc.tryAdd (tsc.run (tsc.mkContainer α 0) ops) item
              = (Except.ok false, tsc.run (tsc.mkContainer α 0) ops))
      ∧ (∀ c : tsc.Container α, c.max_size = 0 →
          (tsc.waitAddPred c = true ↔ c.is_active = false)) := by
  intro α
  refine ⟨rfl, ?_, ?_⟩
  · intro ops item hact
    have hmax : (tsc.run (tsc.mkContainer α 0) ops).max_size = 0 :=
      tsc.run_max_size ops (tsc.mkContainer α 0)
    have hlen : (tsc.run (tsc.mkContainer α 0) ops).queue.length = 0 :=
      Nat.le_zero.mp
        (tsc.run_length_le ops (tsc.mkContainer α 0) (by simp [tsc.mkContainer]))
    simp [tsc.tryAdd, hact, hlen, hmax]
  · intro c h
    simp [tsc.waitAddPred, h]

/-- Witness for C10: after one (failing) `tryRemove` against the
capacity-0 container, it is still active and `tryAdd 3` returns `false`
unchanged; the `waitAdd` predicate of `⟨0, [], true⟩` holds only under
shutdown. -/
theorem claim10_witness :
    tsc.mkContainer Nat 0 = ⟨0, [], true⟩
    ∧ tsc.tryAdd (tsc.run (tsc.mkContainer Nat 0) [tsc.Op.tryRemoveOp]) 3
      = (Except.ok false, tsc.run (tsc.mkContainer Nat 0) [tsc.Op.tryRemoveOp])
    ∧ (tsc.waitAddPred (⟨0, [], true⟩ : tsc.Container Nat) = true
        ↔ (⟨0, [], true⟩ : tsc.Container Nat).is_active = false) :=
  ⟨(claim10_zero_capacity Nat).1,
   (claim10_zero_capacity Nat).2.1 [tsc.Op.tryRemoveOp] 3 rfl,
   (claim10_zero_capacity Nat).2.2 ⟨0, [], true⟩ rfl⟩

end TSQ
